import Mathlib

/-!
Verification of the test-session engine of the Quiz-app FastAPI repository
(`routes/test_routes.py`, persistent models in `db.py`).

The embedding is shallow: SQLAlchemy rows become Lean structures, the DB
becomes an explicit `Store` value, each route handler becomes a function
`Store → ... → Except HErr (Result × Store)` (the returned `Store` is the
post-commit database), and `raise HTTPException(code, detail)` becomes
`Except.error ⟨code, detail⟩`.  Timestamps are exact rationals (seconds),
which models `datetime` subtraction and `total_seconds()` exactly; Python
`float` rounding noise is not modelled.  The `answers_json` column is
modelled as the parsed JSON value `Option (List TestAnswer)` (`none` = SQL
NULL): `complete` only ever stores `json.dumps` of validated answer
records, and `_parse_answers` reconstructs exactly those records minus the
`options` field, so serialization is the identity at this abstraction.
-/

namespace QuizApp

/-- An HTTP error, mirroring `HTTPException(status_code, detail)`. -/
structure HErr where
  status : Nat
  detail : String
deriving DecidableEq

/-! ### Python string primitives (modelled for the Unicode whitespace set
and ASCII case mapping, which covers every string the routes handle) -/

/-- Characters stripped by Python `str.strip()` (the `str.isspace` set). -/
def isPyWhitespace (c : Char) : Bool :=
  c.toNat = 32 || (9 ≤ c.toNat && c.toNat ≤ 13) || (28 ≤ c.toNat && c.toNat ≤ 31) ||
  c.toNat = 133 || c.toNat = 160 || c.toNat = 0x1680 ||
  (0x2000 ≤ c.toNat && c.toNat ≤ 0x200a) || c.toNat = 0x2028 || c.toNat = 0x2029 ||
  c.toNat = 0x202f || c.toNat = 0x205f || c.toNat = 0x3000

/-- `str.strip()` on a character list: drop whitespace from both ends. -/
def pyStripList (l : List Char) : List Char :=
  ((l.dropWhile isPyWhitespace).reverse.dropWhile isPyWhitespace).reverse

/-- Python `str.strip()`. -/
def pyStrip (s : String) : String := ⟨pyStripList s.data⟩

/-- Python `str.lower()`, ASCII case mapping. -/
def pyLowerChar (c : Char) : Char :=
  if 65 ≤ c.toNat ∧ c.toNat ≤ 90 then Char.ofNat (c.toNat + 32) else c

/-- Python `str.lower()`. -/
def pyLower (s : String) : String := ⟨s.data.map pyLowerChar⟩

/-- Substring containment on character lists (Python `needle in hay`). -/
def listContainsSub (needle : List Char) : List Char → Bool
  | [] => needle.isEmpty
  | c :: rest => needle.isPrefixOf (c :: rest) || listContainsSub needle rest

/-- Python `needle in hay` for strings. -/
def strContainsSub (hay needle : String) : Bool := listContainsSub needle.data hay.data

/-- Python `str.isdigit()` (ASCII digits). -/
def pyIsDigit (s : String) : Bool := !s.isEmpty && s.data.all (fun c => c.isDigit)

/-- Python `s.split(sep)` for a one-character separator, on character
lists. -/
def pySplitList (sep : Char) : List Char → List (List Char)
  | [] => [[]]
  | c :: rest =>
    match pySplitList sep rest with
    | [] => [[]]
    | cur :: parts => if c = sep then [] :: cur :: parts else (c :: cur) :: parts

/-- Python `s.split(sep)` for a one-character separator. -/
def pySplit (s : String) (sep : Char) : List String :=
  (pySplitList sep s.data).map (fun l => ⟨l⟩)

/-- Python `int(s)` for a digit string (callers guard with `pyIsDigit`). -/
def pyInt (s : String) : Nat := s.data.foldl (fun n c => n * 10 + (c.toNat - 48)) 0

/-- A Python value that may or may not be a string, for the
`isinstance(value, str)` check in `sanitize_string`. -/
inductive PyVal where
  | str (s : String)
  | nonStr
deriving DecidableEq

/-! ### Exact arithmetic models of Python numeric operations -/

/-- Python `int(x)` on a float/rational: truncation toward zero. -/
def pyIntOfRat (q : Rat) : Int :=
  if q < 0 then -Int.floor (-q) else Int.floor q

/-- Python `round(x)` to an integer: round half to even (banker rounding). -/
def roundHalfEven (q : Rat) : Int :=
  let f := Int.floor q
  let r := q - (f : Rat)
  if r < 1/2 then f
  else if 1/2 < r then f + 1
  else if f % 2 = 0 then f else f + 1

/-- Python `round(x, 2)`: round to 2 decimal places, half to even. -/
def round2 (q : Rat) : Rat := ((roundHalfEven (q * 100) : Int) : Rat) / 100

/-! ### Data model (`db.py`) -/

/-- A row of `users` (only the fields the test routes read). -/
structure User where
  id : Nat
  email : String
deriving DecidableEq

/-- A row of `decks` (only the fields the test routes read). -/
structure Deck where
  id : Nat
  title : String
  visibility : String
  owner_id : Nat
deriving DecidableEq

/-- A row of `cards`; `options` is the parsed `options_json`
(`none` = NULL, empty, or unparseable JSON). -/
structure Card where
  id : Nat
  deck_id : Nat
  question : String
  answer : String
  qtype : String
  options : Option (List String)
deriving DecidableEq

/-- A per-answer record, mirroring the `TestAnswer` pydantic model. -/
structure TestAnswer where
  card_id : Int
  user_answer : String
  is_correct : Bool
  time_taken : Option Int
  options : Option (List String)
deriving DecidableEq

/-- A row of `test_sessions` (`TestSessionDB`); `answers_log` is the parsed
`answers_json` column. -/
structure SessionRec where
  session_id : String
  deck_id : Nat
  user_id : Nat
  started_at : Rat
  completed_at : Option Rat
  total_cards : Nat
  correct_answers : Option Nat
  total_time : Option Int
  answers_log : Option (List TestAnswer)
deriving DecidableEq

/-- The database: each table as a list of rows, in insertion order
(`query(...).first()` returns the first matching row). -/
structure Store where
  users : List User
  decks : List Deck
  cards : List Card
  sessions : List SessionRec
deriving DecidableEq

/-- `db.query(Card).filter(Card.deck_id == deck_id).all()`. -/
def deckCards (st : Store) (deckId : Nat) : List Card :=
  st.cards.filter (fun c => c.deck_id == deckId)

/-! ### `sanitize_string` (test_routes.py lines 148-162) -/

/-- The forbidden substring denylist of `sanitize_string`
(semicolon, SQL comment markers, quote characters, `xp_`). -/
def forbiddenSubstrings : List String := [";", "--", "\x27", "\x22", "/*", "*/", "xp_"]

/-- `sanitize_string(raw_value)`: reject non-strings, strip, reject
control characters and forbidden substrings, return the stripped string. -/
def sanitize_string : PyVal → Except HErr String
  | PyVal.nonStr => .error ⟨400, "Invalid input: string expected"⟩
  | PyVal.str raw =>
    let sanitized := pyStrip raw
    if sanitized.data.any (fun c => c.toNat < 32) then
      .error ⟨400, "Invalid input: control characters not allowed"⟩
    else if forbiddenSubstrings.any (fun f => strContainsSub sanitized f) then
      .error ⟨400, "Invalid input: forbidden characters detected"⟩
    else .ok sanitized

/-! ### `validate_session_id` (lines 165-174) -/

/-- `validate_session_id(session_id, db, current_user)`: reject empty ids,
look the session up, check ownership. -/
def validate_session_id (st : Store) (cu : User) (session_id : String) :
    Except HErr SessionRec :=
  if session_id = "" then .error ⟨400, "Invalid session_id"⟩
  else
    match st.sessions.find? (fun s => s.session_id == session_id) with
    | none => .error ⟨404, "Session not found"⟩
    | some s =>
      if s.user_id ≠ cu.id then
        .error ⟨403, "Session does not belong to current user"⟩
      else .ok s

/-! ### `start_test_session` (lines 70-146) -/

/-- A card as exposed to the client by `start` (lines 103-111): id,
question, qtype and options only — the structure has no answer field. -/
structure TestCard where
  id : Nat
  question : String
  qtype : String
  options : Option (List String)
deriving DecidableEq

/-- The per-card payload built by `start`. -/
def testCardOfCard (c : Card) : TestCard :=
  ⟨c.id, c.question, c.qtype, c.options⟩

/-- The response of `start` (the dict literal at lines 136-146, without the
free-text `started_at` echo). -/
structure StartResult where
  session_id : String
  deck_id : Nat
  deck_title : String
  deck_owner : String
  total_cards : Nat
  cards : List TestCard
  per_card_seconds : Int
  time_limit_seconds : Int
deriving DecidableEq

/-- `start_test_session(payload, db, current_user)`.  `shuffled` is the
result of `random.shuffle(cards)` — a permutation of the queried deck
cards, passed explicitly because shuffling is nondeterministic.  `newSid`
is the fresh `uuid.uuid4()` string; `now` is `datetime.now()`.  A missing
owner row would make `.first().email` raise (an unhandled 500); on that
path the already-committed session insert is not observable here, and no
claim touches it. -/
def start_test_session (st : Store) (cu : User) (deckId : Nat)
    (perCard : Int) (totalTimeSecs : Option Int)
    (shuffled : List Card) (newSid : String) (now : Rat) :
    Except HErr (StartResult × Store) :=
  match st.decks.find? (fun d => d.id == deckId) with
  | none => .error ⟨404, "Deck not found"⟩
  | some deck =>
    if deck.visibility = "private" ∧ deck.owner_id ≠ cu.id then
      .error ⟨403, "Cannot access private deck"⟩
    else
      let cards := deckCards st deckId
      if cards.isEmpty then .error ⟨400, "Deck has no cards to test"⟩
      else
        let newSession : SessionRec :=
          ⟨newSid, deckId, cu.id, now, none, cards.length, none, none, none⟩
        let st2 : Store := { st with sessions := st.sessions ++ [newSession] }
        let timeLimit : Int := totalTimeSecs.getD (perCard * (cards.length : Int))
        match st.users.find? (fun u => u.id == deck.owner_id) with
        | none => .error ⟨500, "Internal Server Error"⟩
        | some owner =>
          .ok (⟨newSid, deckId, deck.title, owner.email, cards.length,
                shuffled.map testCardOfCard, perCard, timeLimit⟩, st2)

/-! ### `submit_test_answer` (lines 239-273) -/

/-- The `TestAnswerSubmit` request body.  `card_id` is typed `Any` in the
source; the non-integer case (rejected with the same 400 as non-positive
ids) is not needed by any claim, so the integer case is embedded. -/
structure SubmitPayload where
  card_id : Int
  user_answer : PyVal
  time_taken : Option Int
deriving DecidableEq

/-- The response dict of `submit-answer`. -/
structure SubmitResult where
  card_id : Int
  is_correct : Bool
  correct_answer : String
  user_answer : String
deriving DecidableEq

/-- The `time_taken is not None and ... < 0` validity test shared by
`submit-answer` and `complete`. -/
def timeTakenInvalid : Option Int → Bool
  | some t => decide (t < 0)
  | none => false

/-- `submit_test_answer(session_id, payload, db, current_user)`.  Returns
the unchanged store: the handler performs no session write. -/
def submit_test_answer (st : Store) (cu : User) (sessionId : String)
    (p : SubmitPayload) : Except HErr (SubmitResult × Store) :=
  match validate_session_id st cu sessionId with
  | .error e => .error e
  | .ok _ =>
    if p.card_id ≤ 0 then .error ⟨400, "Invalid card_id"⟩
    else
      match sanitize_string p.user_answer with
      | .error e => .error e
      | .ok sanitizedAnswer =>
        if timeTakenInvalid p.time_taken then .error ⟨400, "Invalid time_taken"⟩
        else
          match st.cards.find? (fun c => (c.id : Int) == p.card_id) with
          | none => .error ⟨404, "Card not found"⟩
          | some card =>
            .ok (⟨p.card_id,
                  pyLower sanitizedAnswer == pyLower (pyStrip card.answer),
                  card.answer, sanitizedAnswer⟩, st)

/-! ### `complete_test_session` (lines 276-390) -/

/-- The `TestAnswer` request model as received by `complete` (pydantic has
already enforced the field types; `options` on input is ignored by the
handler, which recomputes it from the card row). -/
structure SubmittedAnswer where
  card_id : Int
  user_answer : String
  is_correct : Bool
  time_taken : Option Int
deriving DecidableEq

/-- The stored option payload echoed back for a card id (lines 339-345):
`None` when the card is missing, its `options_json` is NULL/empty, or the
stored payload is malformed. -/
def cardOptions (st : Store) (cardId : Int) : Option (List String) :=
  (st.cards.find? (fun c => (c.id : Int) == cardId)).bind (fun c => c.options)

/-- Validation of one submitted answer inside the `complete` loop
(lines 331-352).  The `isinstance(is_correct, bool)` check always passes
for a pydantic-validated body. -/
def validateAnswer (st : Store) (a : SubmittedAnswer) : Except HErr TestAnswer :=
  if a.card_id ≤ 0 then .error ⟨400, "Invalid card_id in answers"⟩
  else
    match sanitize_string (PyVal.str a.user_answer) with
    | .error e => .error e
    | .ok sanitizedAnswer =>
      if timeTakenInvalid a.time_taken then
        .error ⟨400, "Invalid time_taken in answers"⟩
      else
        .ok ⟨a.card_id, sanitizedAnswer, a.is_correct, a.time_taken,
             cardOptions st a.card_id⟩

/-- The `for submitted_answer in (answers or [])` loop: validate in order,
stopping at the first error. -/
def validateAnswers (st : Store) : List SubmittedAnswer → Except HErr (List TestAnswer)
  | [] => .ok []
  | a :: rest =>
    match validateAnswer st a with
    | .error e => .error e
    | .ok t =>
      match validateAnswers st rest with
      | .error e => .error e
      | .ok ts => .ok (t :: ts)

/-- The legacy-fallback handler of `complete` (lines 294-307): on a 404
from `validate_session_id`, split the id on underscores; a non-legacy
shape raises 400, a legacy shape whose deck is missing raises 404
"Deck not found", and a legacy shape whose deck exists falls through to
the bare `raise`, re-raising the original exception.  Non-404 errors are
re-raised unchanged. -/
def legacyFallback (st : Store) (sessionId : String) (e : HErr) : HErr :=
  if e.status = 404 then
    let parts := pySplit sessionId ('_')
    if parts.length ≥ 3 ∧ pyIsDigit (parts.getD 1 "") then
      match st.decks.find? (fun d => d.id == pyInt (parts.getD 1 "")) with
      | none => ⟨404, "Deck not found"⟩
      | some _ => e
    else ⟨400, "Invalid session_id format"⟩
  else e

/-- The accuracy computed by `complete` (line 357), before rounding:
`(correct_answers / total_cards) * 100 if total_cards > 0 else 0`. -/
def completeAccuracy (ad : List TestAnswer) : Rat :=
  if 0 < ad.length then
    (((ad.filter (fun a => a.is_correct)).length : Rat) / (ad.length : Rat)) * 100
  else 0

/-- The `total_time` computed by `complete` (lines 359-363):
`int((completed_at - started_at).total_seconds())` when a `started_at` was
supplied (truncation toward zero), else `sum((a.time_taken or 0) ...)`. -/
def completeTotalTime (startedAt : Option Rat) (now : Rat) (ad : List TestAnswer) : Int :=
  match startedAt with
  | some s0 => pyIntOfRat (now - s0)
  | none => ad.foldl (fun acc a => acc + a.time_taken.getD 0) 0

/-- The `TestSessionResult` response model. -/
structure TestSessionResult where
  session_id : String
  deck_title : String
  deck_owner : String
  total_cards : Nat
  correct_answers : Nat
  accuracy : Rat
  total_time : Int
  completed_at : Rat
  answers : List TestAnswer
deriving DecidableEq

/-- `complete_test_session(session_id, answers, started_at, db,
current_user)`.  `startedAt` is the parsed value of a valid, sanitized
ISO-8601 `started_at` string (`none` when the parameter was omitted; a
malformed string raises 400 before any computation and is not needed by
the claims).  `now` is `datetime.now()`, used both as `completed_at` and
in the elapsed-time computation. -/
def complete_test_session (st : Store) (cu : User) (sessionId : String)
    (answers : Option (List SubmittedAnswer)) (startedAt : Option Rat)
    (now : Rat) : Except HErr (TestSessionResult × Store) :=
  match validate_session_id st cu sessionId with
  | .error e => .error (legacyFallback st sessionId e)
  | .ok sess =>
    match st.decks.find? (fun d => d.id == sess.deck_id) with
    | none => .error ⟨404, "Deck not found"⟩
    | some deck =>
      match validateAnswers st (answers.getD []) with
      | .error e => .error e
      | .ok answerDetails =>
        match st.sessions.find? (fun s => s.session_id == sessionId && s.user_id == cu.id) with
        | none => .error ⟨404, "Test session not found"⟩
        | some dbSess =>
          match st.users.find? (fun u => u.id == deck.owner_id) with
          | none => .error ⟨500, "Internal Server Error"⟩
          | some owner =>
            .ok (⟨sessionId, deck.title, owner.email, answerDetails.length,
                  (answerDetails.filter (fun a => a.is_correct)).length,
                  round2 (completeAccuracy answerDetails),
                  completeTotalTime startedAt now answerDetails, now, answerDetails⟩,
                 { st with sessions :=
                     st.sessions.map (fun s =>
                       if s.session_id == sessionId && s.user_id == cu.id then
                         { dbSess with
                           completed_at := some now
                           correct_answers :=
                             some ((answerDetails.filter (fun a => a.is_correct)).length)
                           total_time := some (completeTotalTime startedAt now answerDetails)
                           answers_log := some answerDetails }
                       else s) })

/-! ### `_parse_answers` (lines 203-236) and `result-summary` (lines 551-575) -/

/-- `_parse_answers` reconstructs each stored answer without its `options`
field (the reconstruction at lines 223-228 copies only card_id,
user_answer, is_correct and time_taken).  A NULL column parses to `[]`;
malformed JSON (never produced by `complete`) also parses to `[]` and is
not representable at this abstraction. -/
def parse_answers (log : Option (List TestAnswer)) : List TestAnswer :=
  (log.getD []).map (fun a => { a with options := none })

/-- The `TestResultSummary` response model. -/
structure TestResultSummary where
  total_questions : Nat
  correct_count : Nat
  mistake_count : Int
  score_percent : Rat
deriving DecidableEq

/-- `get_test_result_summary(session_id, db, current_user)`. -/
def get_test_result_summary (st : Store) (cu : User) (sessionId : String) :
    Except HErr TestResultSummary :=
  match validate_session_id st cu sessionId with
  | .error e => .error e
  | .ok sess =>
    if sess.completed_at.isNone then
      .error ⟨400, "Test session not completed yet"⟩
    else
      let answers := parse_answers sess.answers_log
      let total := answers.length
      let correct : Nat :=
        match sess.correct_answers with
        | some c => c
        | none => (answers.filter (fun a => a.is_correct)).length
      let mistakes : Int := max ((total : Int) - (correct : Int)) 0
      let score : Rat :=
        round2 (if total ≠ 0 then ((correct : Rat) / (total : Rat)) * 100 else 0)
      .ok ⟨total, correct, mistakes, score⟩

/-! ### Decidability of result equalities, and concrete fixtures used by
witnesses and counterexamples -/

instance {ε α : Type} [DecidableEq ε] [DecidableEq α] : DecidableEq (Except ε α) := fun x y =>
  match x, y with
  | .error a, .error b =>
    if h : a = b then isTrue (by rw [h]) else isFalse (fun hh => h (Except.error.inj hh))
  | .ok a, .ok b =>
    if h : a = b then isTrue (by rw [h]) else isFalse (fun hh => h (Except.ok.inj hh))
  | .error _, .ok _ => isFalse (fun hh => Except.noConfusion hh)
  | .ok _, .error _ => isFalse (fun hh => Except.noConfusion hh)

/-- Fixture: a user who owns the fixture decks. -/
def alice : User := ⟨1, "alice@example.com"⟩

/-- Fixture: a second user. -/
def bob : User := ⟨2, "bob@example.com"⟩

/-- Fixture: a public deck owned by alice. -/
def deck1 : Deck := ⟨1, "Capitals", "public", 1⟩

/-- Fixture: a private deck owned by alice. -/
def deckPriv : Deck := ⟨2, "Secrets", "private", 1⟩

/-- Fixture: a public deck with no cards. -/
def deckEmpty : Deck := ⟨3, "Empty", "public", 1⟩

/-- Fixture: a card of deck 1 with stored answer "Paris". -/
def cardParis : Card := ⟨1, 1, "Capital of France?", "Paris", "fillups", none⟩

/-- Fixture: a card that belongs to deck 2, not deck 1. -/
def cardOther : Card := ⟨2, 2, "Pick B", "B", "mcq", some ["A", "B"]⟩

/-- Fixture: an in-progress session of alice on deck 1. -/
def sessFresh : SessionRec := ⟨"s1", 1, 1, 0, none, 1, none, none, none⟩

/-- Fixture: a completed session of alice on deck 1. -/
def sessDone : SessionRec :=
  ⟨"s2", 1, 1, 0, some 5, 1, some 1, some 3, some [⟨1, "paris", true, some 3, none⟩]⟩

/-- Fixture: the main store. -/
def stMain : Store :=
  ⟨[alice, bob], [deck1, deckPriv, deckEmpty], [cardParis, cardOther], [sessFresh]⟩

/-- Fixture: the store produced by a successful `start` of deck 1 on
`stMain` with fresh session id "n4" at time 0. -/
def stAfterStart : Store :=
  ⟨[alice, bob], [deck1, deckPriv, deckEmpty], [cardParis, cardOther],
   [sessFresh, ⟨"n4", 1, 1, 0, none, 1, none, none, none⟩]⟩

/-- Fixture: a store whose only session is already completed. -/
def stDone : Store :=
  ⟨[alice, bob], [deck1, deckPriv, deckEmpty], [cardParis, cardOther], [sessDone]⟩

/-- Fixture: a store with no sessions at all. -/
def stNoSess : Store :=
  ⟨[alice, bob], [deck1, deckPriv, deckEmpty], [cardParis, cardOther], []⟩

/-- Fixture: a submitted answer for card 1 ("` pAris `", marked correct,
3 seconds). -/
def submAns : SubmittedAnswer := ⟨1, " pAris ", true, some 3⟩

/-- Fixture: the validated form of `submAns` (sanitized answer, options
echoed from card 1, which has none). -/
def tAns : TestAnswer := ⟨1, "pAris", true, some 3, none⟩

/-- Fixture: the result of completing "s1" with `[submAns]` and no
started_at at time 10. -/
def resMain : TestSessionResult :=
  ⟨"s1", "Capitals", "alice@example.com", 1, 1, 100, 3, 10, [tAns]⟩

/-- Fixture: the store after that completion. -/
def stAfterCompleteMain : Store :=
  ⟨[alice, bob], [deck1, deckPriv, deckEmpty], [cardParis, cardOther],
   [⟨"s1", 1, 1, 0, some 10, 1, some 1, some 3, some [tAns]⟩]⟩

/-- Fixture: the result of completing "s1" with `[submAns]` and
started_at = 1 at time 10 (elapsed 9 seconds). -/
def resStarted : TestSessionResult :=
  ⟨"s1", "Capitals", "alice@example.com", 1, 1, 100, 9, 10, [tAns]⟩

/-- Fixture: the store after that completion. -/
def stAfterCompleteStarted : Store :=
  ⟨[alice, bob], [deck1, deckPriv, deckEmpty], [cardParis, cardOther],
   [⟨"s1", 1, 1, 0, some 10, 1, some 1, some 9, some [tAns]⟩]⟩

/-- Fixture: the store after completing "s1" with no answers and
started_at = 21/2 at time 10 (elapsed −1/2 second, truncated to 0). -/
def stAfterCompleteNegHalf : Store :=
  ⟨[alice, bob], [deck1, deckPriv, deckEmpty], [cardParis, cardOther],
   [⟨"s1", 1, 1, 0, some 10, 1, some 0, some 0, some []⟩]⟩

/-- Fixture: the store after re-completing the already-completed session
"s2" with no answers at time 9. -/
def stReDone : Store :=
  ⟨[alice, bob], [deck1, deckPriv, deckEmpty], [cardParis, cardOther],
   [⟨"s2", 1, 1, 0, some 9, 1, some 0, some 0, some []⟩]⟩

/-- Fixture: the store after a `start` of deck 1 on `stDone` with fresh
session id "n9" at time 0. -/
def stAfterStartDone : Store :=
  ⟨[alice, bob], [deck1, deckPriv, deckEmpty], [cardParis, cardOther],
   [sessDone, ⟨"n9", 1, 1, 0, none, 1, none, none, none⟩]⟩

/-- Fixture: the response of that `start` call. -/
def resStartDone : StartResult :=
  ⟨"n9", 1, "Capitals", "alice@example.com", 1, [testCardOfCard cardParis], 10, 10⟩

/-! ## Helper lemmas -/

theorem sanitize_ok_eq {v : PyVal} {s : String} (h : sanitize_string v = .ok s) :
    ∃ raw, v = PyVal.str raw ∧ s = pyStrip raw := by
  cases v with
  | nonStr => simp [sanitize_string] at h
  | str raw =>
    refine ⟨raw, rfl, ?_⟩
    simp only [sanitize_string] at h
    split at h
    · exact absurd h (by simp)
    · split at h
      · exact absurd h (by simp)
      · exact (Except.ok.inj h).symm

theorem validateAnswer_ok {st : Store} {a : SubmittedAnswer} {t : TestAnswer}
    (h : validateAnswer st a = .ok t) :
    t = ⟨a.card_id, pyStrip a.user_answer, a.is_correct, a.time_taken,
         cardOptions st a.card_id⟩ := by
  simp only [validateAnswer] at h
  split at h
  · exact absurd h (by simp)
  · split at h
    · exact absurd h (by simp)
    · rename_i s hs
      split at h
      · exact absurd h (by simp)
      · obtain ⟨raw, hraw, hstrip⟩ := sanitize_ok_eq hs
        cases PyVal.str.inj hraw
        rw [← Except.ok.inj h, hstrip]

theorem validateAnswers_ok {st : Store} {l : List SubmittedAnswer} {out : List TestAnswer}
    (h : validateAnswers st l = .ok out) :
    out = l.map (fun a => ⟨a.card_id, pyStrip a.user_answer, a.is_correct, a.time_taken,
                           cardOptions st a.card_id⟩) := by
  induction l generalizing out with
  | nil =>
    simp only [validateAnswers] at h
    simp [← Except.ok.inj h]
  | cons a rest ih =>
    simp only [validateAnswers] at h
    split at h
    · exact absurd h (by simp)
    · rename_i t ht
      split at h
      · exact absurd h (by simp)
      · rename_i ts hts
        rw [← Except.ok.inj h, List.map_cons, validateAnswer_ok ht, ih hts]

theorem validate_session_id_ok {st : Store} {cu : User} {sid : String} {sess : SessionRec}
    (h : validate_session_id st cu sid = .ok sess) :
    sid ≠ "" ∧ st.sessions.find? (fun s => s.session_id == sid) = some sess ∧
      sess.user_id = cu.id := by
  simp only [validate_session_id] at h
  split at h
  · exact absurd h (by simp)
  · rename_i hne
    split at h
    · exact absurd h (by simp)
    · rename_i s hfind
      split at h
      · exact absurd h (by simp)
      · rename_i huser
        cases Except.ok.inj h
        exact ⟨hne, hfind, not_not.mp (fun hx => huser hx)⟩

theorem find?_user_of_find? {l : List SessionRec} {sid : String} {uid : Nat}
    {sess : SessionRec}
    (h : l.find? (fun s => s.session_id == sid) = some sess) (hu : sess.user_id = uid) :
    l.find? (fun s => s.session_id == sid && s.user_id == uid) = some sess := by
  induction l with
  | nil => simp at h
  | cons a rest ih =>
    by_cases ha : (a.session_id == sid) = true
    · simp only [List.find?_cons, ha, if_true] at h
      cases Option.some.inj h
      simp [List.find?_cons, ha, hu]
    · simp only [List.find?_cons, ha, if_false] at h
      simp only [List.find?_cons, ha, Bool.false_and, if_false]
      exact ih h

theorem find?_map_update {l : List SessionRec} {sid : String} {uid : Nat}
    {sess upd : SessionRec}
    (h : l.find? (fun s => s.session_id == sid) = some sess) (hu : sess.user_id = uid)
    (h1 : upd.session_id = sid) :
    (l.map (fun s => if s.session_id == sid && s.user_id == uid then upd else s)).find?
      (fun s => s.session_id == sid) = some upd := by
  induction l with
  | nil => simp at h
  | cons a rest ih =>
    by_cases ha : (a.session_id == sid) = true
    · simp only [List.find?_cons, ha, if_true] at h
      cases Option.some.inj h
      simp only [List.map_cons, ha, hu, beq_self_eq_true, Bool.and_self, if_true]
      simp [List.find?_cons, h1]
    · have ha2 : (a.session_id == sid) = false := by simpa using ha
      have h2 : List.find? (fun s => s.session_id == sid) rest = some sess := by
        simp only [List.find?_cons, ha2] at h
        exact h
      simp only [List.map_cons, ha2, Bool.false_and, Bool.false_eq_true, if_false]
      simp only [List.find?_cons, ha2]
      exact ih h2

theorem foldl_time_eq_sum (l : List TestAnswer) (i : Int) :
    l.foldl (fun acc a => acc + a.time_taken.getD 0) i =
      i + (l.map (fun a => a.time_taken.getD 0)).sum := by
  induction l generalizing i with
  | nil => simp
  | cons a rest ih =>
    simp only [List.foldl_cons, List.map_cons, List.sum_cons, ih]
    ring

theorem pyIntOfRat_eq_floor {q : Rat} (h : 0 ≤ q) : pyIntOfRat q = Int.floor q := by
  simp [pyIntOfRat, not_lt.mpr h]

theorem round2_zero : round2 0 = 0 := by norm_num [round2, roundHalfEven]

theorem complete_ok_inv {st st2 : Store} {cu : User} {sid : String}
    {answers : Option (List SubmittedAnswer)} {startedAt : Option Rat} {now : Rat}
    {r : TestSessionResult}
    (h : complete_test_session st cu sid answers startedAt now = .ok (r, st2)) :
    ∃ sess deck owner ad dbSess,
      validate_session_id st cu sid = .ok sess ∧
      st.decks.find? (fun d => d.id == sess.deck_id) = some deck ∧
      validateAnswers st (answers.getD []) = .ok ad ∧
      st.sessions.find? (fun s => s.session_id == sid && s.user_id == cu.id) = some dbSess ∧
      st.users.find? (fun u => u.id == deck.owner_id) = some owner ∧
      r = ⟨sid, deck.title, owner.email, ad.length,
           (ad.filter (fun a => a.is_correct)).length,
           round2 (completeAccuracy ad), completeTotalTime startedAt now ad, now, ad⟩ ∧
      st2 = { st with sessions := st.sessions.map (fun s =>
          if s.session_id == sid && s.user_id == cu.id then
            { dbSess with
              completed_at := some now
              correct_answers := some ((ad.filter (fun a => a.is_correct)).length)
              total_time := some (completeTotalTime startedAt now ad)
              answers_log := some ad }
          else s) } := by
  simp only [complete_test_session] at h
  split at h
  · exact absurd h (by simp)
  · rename_i sess hsess
    split at h
    · exact absurd h (by simp)
    · rename_i deck hdeck
      split at h
      · exact absurd h (by simp)
      · rename_i ad had
        split at h
        · exact absurd h (by simp)
        · rename_i dbSess hdb
          split at h
          · exact absurd h (by simp)
          · rename_i owner howner
            have h2 := Except.ok.inj h
            exact ⟨sess, deck, owner, ad, dbSess, hsess, hdeck, had, hdb, howner,
              (congrArg Prod.fst h2).symm, (congrArg Prod.snd h2).symm⟩

theorem start_ok_inv {st st2 : Store} {cu : User} {deckId : Nat} {perCard : Int}
    {totalTimeSecs : Option Int} {shuffled : List Card} {newSid : String} {now : Rat}
    {res : StartResult}
    (h : start_test_session st cu deckId perCard totalTimeSecs shuffled newSid now =
      .ok (res, st2)) :
    ∃ deck owner,
      st.decks.find? (fun d => d.id == deckId) = some deck ∧
      ¬(deck.visibility = "private" ∧ deck.owner_id ≠ cu.id) ∧
      (deckCards st deckId).isEmpty = false ∧
      st.users.find? (fun u => u.id == deck.owner_id) = some owner ∧
      res = ⟨newSid, deckId, deck.title, owner.email, (deckCards st deckId).length,
             shuffled.map testCardOfCard, perCard,
             totalTimeSecs.getD (perCard * ((deckCards st deckId).length : Int))⟩ ∧
      st2 = { st with sessions := st.sessions ++
          [⟨newSid, deckId, cu.id, now, none, (deckCards st deckId).length,
            none, none, none⟩] } := by
  simp only [start_test_session] at h
  split at h
  · exact absurd h (by simp)
  · rename_i deck hdeck
    split at h
    · exact absurd h (by simp)
    · rename_i haccess
      split at h
      · exact absurd h (by simp)
      · rename_i hcards
        split at h
        · exact absurd h (by simp)
        · rename_i owner howner
          have h2 := Except.ok.inj h
          injection h2 with hres hst
          exact ⟨deck, owner, hdeck, haccess, by simpa using hcards, howner,
            hres.symm, hst.symm⟩

theorem submit_ok_inv {st st2 : Store} {cu : User} {sid : String} {p : SubmitPayload}
    {out : SubmitResult}
    (h : submit_test_answer st cu sid p = .ok (out, st2)) :
    ∃ sess card raw,
      validate_session_id st cu sid = .ok sess ∧
      ¬(p.card_id ≤ 0) ∧
      p.user_answer = PyVal.str raw ∧
      sanitize_string p.user_answer = .ok (pyStrip raw) ∧
      timeTakenInvalid p.time_taken = false ∧
      st.cards.find? (fun c => (c.id : Int) == p.card_id) = some card ∧
      out = ⟨p.card_id, pyLower (pyStrip raw) == pyLower (pyStrip card.answer),
             card.answer, pyStrip raw⟩ ∧
      st2 = st := by
  simp only [submit_test_answer] at h
  split at h
  · exact absurd h (by simp)
  · rename_i sess hsess
    split at h
    · exact absurd h (by simp)
    · rename_i hpos
      split at h
      · exact absurd h (by simp)
      · rename_i s hsan
        split at h
        · exact absurd h (by simp)
        · rename_i htime
          split at h
          · exact absurd h (by simp)
          · rename_i card hcard
            obtain ⟨raw, hraw, hstrip⟩ := sanitize_ok_eq hsan
            have h2 := Except.ok.inj h
            injection h2 with hout hst
            refine ⟨sess, card, raw, hsess, hpos, hraw, ?_, by simpa using htime, hcard,
              ?_, hst.symm⟩
            · rw [hsan, hstrip]
            · rw [← hout, hstrip]

/-! ## Claim theorems -/

/-- C7: `sanitize` fails with INVALID_INPUT (400) when the value is not a
string; otherwise it trims surrounding whitespace, fails with
INVALID_INPUT when any remaining character has ordinal below 32 or when
the trimmed value contains a forbidden substring (";", "--", single
quote, double quote, "/*", "*/", "xp_"), and otherwise returns the
trimmed string. -/
theorem C7_sanitize_spec (raw : String) :
    sanitize_string PyVal.nonStr = .error ⟨400, "Invalid input: string expected"⟩ ∧
    ((pyStrip raw).data.any (fun c => decide (c.toNat < 32)) = true →
      sanitize_string (PyVal.str raw) =
        .error ⟨400, "Invalid input: control characters not allowed"⟩) ∧
    ((pyStrip raw).data.any (fun c => decide (c.toNat < 32)) = false →
      forbiddenSubstrings.any (fun f => strContainsSub (pyStrip raw) f) = true →
      sanitize_string (PyVal.str raw) =
        .error ⟨400, "Invalid input: forbidden characters detected"⟩) ∧
    ((pyStrip raw).data.any (fun c => decide (c.toNat < 32)) = false →
      forbiddenSubstrings.any (fun f => strContainsSub (pyStrip raw) f) = false →
      sanitize_string (PyVal.str raw) = .ok (pyStrip raw)) := by
  refine ⟨rfl, fun h1 => ?_, fun h1 h2 => ?_, fun h1 h2 => ?_⟩
  · simp [sanitize_string, h1]
  · simp [sanitize_string, h1, h2]
  · simp [sanitize_string, h1, h2]

/-- C7 witness: at the concrete inputs `"  ok value  "` (accepted and
trimmed), a non-string, a control character and a semicolon. -/
theorem C7_witness :
    (sanitize_string PyVal.nonStr = .error ⟨400, "Invalid input: string expected"⟩ ∧
      ((pyStrip "  ok value  ").data.any (fun c => decide (c.toNat < 32)) = true →
        sanitize_string (PyVal.str "  ok value  ") =
          .error ⟨400, "Invalid input: control characters not allowed"⟩) ∧
      ((pyStrip "  ok value  ").data.any (fun c => decide (c.toNat < 32)) = false →
        forbiddenSubstrings.any (fun f => strContainsSub (pyStrip "  ok value  ") f) = true →
        sanitize_string (PyVal.str "  ok value  ") =
          .error ⟨400, "Invalid input: forbidden characters detected"⟩) ∧
      ((pyStrip "  ok value  ").data.any (fun c => decide (c.toNat < 32)) = false →
        forbiddenSubstrings.any (fun f => strContainsSub (pyStrip "  ok value  ") f) = false →
        sanitize_string (PyVal.str "  ok value  ") = .ok (pyStrip "  ok value  "))) ∧
    sanitize_string (PyVal.str "a\x00b") =
      .error ⟨400, "Invalid input: control characters not allowed"⟩ ∧
    sanitize_string (PyVal.str "abc;def") =
      .error ⟨400, "Invalid input: forbidden characters detected"⟩ ∧
    sanitize_string (PyVal.str "  ok value  ") = .ok "ok value" :=
  ⟨C7_sanitize_spec "  ok value  ", by decide, by decide, by decide⟩

/-- C5: for an existing card and a sanitized submitted answer,
submit-answer returns is_correct = true iff the whitespace-trimmed,
lowercased submitted answer equals the whitespace-trimmed, lowercased
stored answer of the card. -/
theorem C5_submit_correctness {st st2 : Store} {cu : User} {sid : String}
    {p : SubmitPayload} {out : SubmitResult} {card : Card} {raw : String}
    (hraw : p.user_answer = PyVal.str raw)
    (hcard : st.cards.find? (fun c => (c.id : Int) == p.card_id) = some card)
    (h : submit_test_answer st cu sid p = .ok (out, st2)) :
    out.is_correct = true ↔ pyLower (pyStrip raw) = pyLower (pyStrip card.answer) := by
  obtain ⟨sess, card2, raw2, _, _, hraw2, _, _, hcard2, hout, _⟩ := submit_ok_inv h
  have hc : card2 = card := Option.some.inj (hcard2.symm.trans hcard)
  have hr : raw2 = raw := PyVal.str.inj (hraw2.symm.trans hraw)
  rw [hout, hc, hr]
  simp

/-- C5 witness: submitting " paris " against stored answer "Paris" yields
is_correct = true. -/
theorem C5_witness :
    ((⟨(1 : Int), pyLower (pyStrip " paris ") == pyLower (pyStrip "Paris"),
        "Paris", "paris"⟩ : SubmitResult).is_correct = true ↔
      pyLower (pyStrip " paris ") = pyLower (pyStrip "Paris")) ∧
    pyLower (pyStrip " paris ") = pyLower (pyStrip "Paris") :=
  ⟨@C5_submit_correctness stMain stMain alice "s1" ⟨1, PyVal.str " paris ", some 2⟩
      ⟨(1 : Int), pyLower (pyStrip " paris ") == pyLower (pyStrip "Paris"),
        "Paris", "paris"⟩
      cardParis " paris " rfl (by decide) (by decide),
    by decide⟩

/-- C9: submit-answer leaves the persistent store entirely unchanged. -/
theorem C9_submit_no_mutation {st st2 : Store} {cu : User} {sid : String}
    {p : SubmitPayload} {out : SubmitResult}
    (h : submit_test_answer st cu sid p = .ok (out, st2)) :
    st2 = st := by
  obtain ⟨_, _, _, _, _, _, _, _, _, _, hst⟩ := submit_ok_inv h
  exact hst

/-- C9 witness: a concrete successful submit-answer call returns the
store it was given. -/
theorem C9_witness : stMain = stMain :=
  @C9_submit_no_mutation stMain stMain alice "s1" ⟨1, PyVal.str " paris ", some 2⟩
    ⟨1, true, "Paris", "paris"⟩ (by decide)

/-- C10: submit-answer grades against any card that exists anywhere in
the store, with no check that the card belongs to the session's deck:
with a valid owned session and an existing card, even one whose deck_id
differs from the session's deck_id, the call succeeds and grades against
that card's stored answer. -/
theorem C10_submit_cross_deck {st : Store} {cu : User} {sid : String} {p : SubmitPayload}
    {sess : SessionRec} {card : Card} {raw : String}
    (hsess : validate_session_id st cu sid = .ok sess)
    (hcard : st.cards.find? (fun c => (c.id : Int) == p.card_id) = some card)
    (hdeck : card.deck_id ≠ sess.deck_id)
    (hraw : p.user_answer = PyVal.str raw)
    (hsan : sanitize_string p.user_answer = .ok (pyStrip raw))
    (hpos : 0 < p.card_id)
    (htime : timeTakenInvalid p.time_taken = false) :
    submit_test_answer st cu sid p =
      .ok (⟨p.card_id, pyLower (pyStrip raw) == pyLower (pyStrip card.answer),
            card.answer, pyStrip raw⟩, st) := by
  simp only [submit_test_answer, hsess, hsan, hcard, htime, Bool.false_eq_true, if_false]
  rw [if_neg (not_le.mpr hpos)]

/-- C10 witness: alice's session "s1" is on deck 1, card 2 belongs to
deck 2, and submit-answer still succeeds and grades against card 2. -/
theorem C10_witness :
    submit_test_answer stMain alice "s1" ⟨2, PyVal.str "b", none⟩ =
      .ok (⟨2, pyLower (pyStrip "b") == pyLower (pyStrip cardOther.answer),
            cardOther.answer, pyStrip "b"⟩, stMain) :=
  @C10_submit_cross_deck stMain alice "s1" ⟨2, PyVal.str "b", none⟩ sessFresh
    cardOther "b" (by decide) (by decide) (by decide) rfl (by decide) (by decide)
    (by decide)

/-- C6: start fails with 404 when the deck does not exist, 403 when the
deck is private and the requester is not the owner, 400 when the deck has
no cards, and succeeds for the owner of a deck with at least one card
(given the owner row exists). -/
theorem C6_start_preconditions (st : Store) (cu : User) (deckId : Nat) (perCard : Int)
    (tts : Option Int) (shuffled : List Card) (sid : String) (now : Rat) :
    (st.decks.find? (fun d => d.id == deckId) = none →
      start_test_session st cu deckId perCard tts shuffled sid now =
        .error ⟨404, "Deck not found"⟩) ∧
    ((st.decks.find? (fun d => d.id == deckId)).any
        (fun deck => decide (deck.visibility = "private" ∧ deck.owner_id ≠ cu.id)) = true →
      start_test_session st cu deckId perCard tts shuffled sid now =
        .error ⟨403, "Cannot access private deck"⟩) ∧
    ((st.decks.find? (fun d => d.id == deckId)).any
        (fun deck => decide (¬(deck.visibility = "private" ∧ deck.owner_id ≠ cu.id))) = true →
      deckCards st deckId = [] →
      start_test_session st cu deckId perCard tts shuffled sid now =
        .error ⟨400, "Deck has no cards to test"⟩) ∧
    ((st.decks.find? (fun d => d.id == deckId)).any
        (fun deck => decide (deck.owner_id = cu.id) &&
          (st.users.find? (fun u => u.id == deck.owner_id)).isSome) = true →
      deckCards st deckId ≠ [] →
      (start_test_session st cu deckId perCard tts shuffled sid now).isOk = true) := by
  cases hfind : st.decks.find? (fun d => d.id == deckId) with
  | none =>
    refine ⟨fun _ => ?_, fun hx => absurd hx (by simp [Option.any]),
      fun hx => absurd hx (by simp [Option.any]),
      fun hx => absurd hx (by simp [Option.any])⟩
    simp [start_test_session, hfind]
  | some deck =>
    refine ⟨fun hx => absurd hx (by simp), fun hx => ?_, fun hx hempty => ?_,
      fun hx hnonempty => ?_⟩
    · simp only [Option.any, decide_eq_true_eq] at hx
      simp [start_test_session, hfind, hx]
    · simp only [Option.any, decide_eq_true_eq] at hx
      simp [start_test_session, hfind, hx, hempty]
    · simp only [Option.any, Bool.and_eq_true, decide_eq_true_eq] at hx
      obtain ⟨howner, hsome⟩ := hx
      obtain ⟨owner, howner2⟩ := Option.isSome_iff_exists.mp hsome
      have hacc : ¬(deck.visibility = "private" ∧ deck.owner_id ≠ cu.id) := by
        intro hcontra
        exact hcontra.2 howner
      simp [start_test_session, hfind, hacc, howner2,
        List.isEmpty_iff, hnonempty, Except.isOk, Except.toBool]

/-- C6 witness: deck 99 is missing (404), bob cannot start alice's
private deck 2 (403), deck 3 has no cards so even its owner alice gets
400, and alice, the owner of private deck 2 (which has one card), starts
it successfully. -/
theorem C6_witness :
    (start_test_session stMain bob 99 10 none [] "n1" 0 =
      .error ⟨404, "Deck not found"⟩) ∧
    (start_test_session stMain bob 2 10 none [cardOther] "n2" 0 =
      .error ⟨403, "Cannot access private deck"⟩) ∧
    (start_test_session stMain alice 3 10 none [] "n3" 0 =
      .error ⟨400, "Deck has no cards to test"⟩) ∧
    (start_test_session stMain alice 2 10 none [cardOther] "n4" 0).isOk = true := by
  have h99 := C6_start_preconditions stMain bob 99 10 none [] "n1" 0
  have h2b := C6_start_preconditions stMain bob 2 10 none [cardOther] "n2" 0
  have h3a := C6_start_preconditions stMain alice 3 10 none [] "n3" 0
  have h2a := C6_start_preconditions stMain alice 2 10 none [cardOther] "n4" 0
  exact ⟨h99.1 (by decide), h2b.2.1 (by decide), h3a.2.2.1 (by decide) (by decide),
    h2a.2.2.2 (by decide) (by decide)⟩

/-- C4: for a deck with at least one card and an authorized requester,
start returns exactly one exposed card per deck card (the shuffled deck),
and the exposed card payload carries only id, question, type and options:
it is invariant under any change to a card's stored answer. -/
theorem C4_start_card_list {st st2 : Store} {cu : User} {deckId : Nat} {perCard : Int}
    {tts : Option Int} {shuffled : List Card} {sid : String} {now : Rat}
    {res : StartResult} (c : Card) (x : String)
    (hperm : shuffled.Perm (deckCards st deckId))
    (h : start_test_session st cu deckId perCard tts shuffled sid now = .ok (res, st2)) :
    res.cards.length = (deckCards st deckId).length ∧
    res.total_cards = (deckCards st deckId).length ∧
    res.cards = shuffled.map testCardOfCard ∧
    testCardOfCard { c with answer := x } = testCardOfCard c := by
  obtain ⟨deck, owner, _, _, _, _, hres, _⟩ := start_ok_inv h
  refine ⟨?_, ?_, ?_, rfl⟩ <;> simp [hres, hperm.length_eq]

/-- C4 witness: starting deck 1 (one card) exposes exactly one card, and
the exposed payload of the Paris card is unchanged if its stored answer
is replaced by "Rome". -/
theorem C4_witness :
    ((⟨"n4", 1, "Capitals", "alice@example.com", 1, [testCardOfCard cardParis],
        10, 10⟩ : StartResult)).cards.length = (deckCards stMain 1).length ∧
    ((⟨"n4", 1, "Capitals", "alice@example.com", 1, [testCardOfCard cardParis],
        10, 10⟩ : StartResult)).total_cards = (deckCards stMain 1).length ∧
    ((⟨"n4", 1, "Capitals", "alice@example.com", 1, [testCardOfCard cardParis],
        10, 10⟩ : StartResult)).cards = [cardParis].map testCardOfCard ∧
    testCardOfCard { cardParis with answer := "Rome" } = testCardOfCard cardParis :=
  @C4_start_card_list stMain stAfterStart alice 1 10 none [cardParis] "n4" 0
    ⟨"n4", 1, "Capitals", "alice@example.com", 1, [testCardOfCard cardParis], 10, 10⟩
    cardParis "Rome" (by decide) (by decide)

/-- C1 (amended): complete with validated answers returns total_cards =
number of submitted answers, correct_answers = number with is_correct
true, accuracy = correct/total × 100 rounded to 2 decimals (0 for an
empty list, with no division failure); total_time is the elapsed
`complete_time − started_at` truncated toward zero — equal to the floor
whenever `started_at ≤ complete_time` — when a valid started_at was
supplied, else the sum of the answers' time_taken with absent treated
as 0. -/
theorem C1_complete_aggregates {st st2 : Store} {cu : User} {sid : String}
    {answers : Option (List SubmittedAnswer)} {startedAt : Option Rat} {now : Rat}
    {r : TestSessionResult}
    (h : complete_test_session st cu sid answers startedAt now = .ok (r, st2)) :
    r.total_cards = (answers.getD []).length ∧
    r.correct_answers = ((answers.getD []).filter (fun a => a.is_correct)).length ∧
    r.accuracy = round2 (if 0 < (answers.getD []).length then
        ((((answers.getD []).filter (fun a => a.is_correct)).length : Rat) /
          ((answers.getD []).length : Rat)) * 100
      else 0) ∧
    ((answers.getD []).length = 0 → r.accuracy = 0) ∧
    (match startedAt with
     | some s0 =>
        r.total_time = pyIntOfRat (now - s0) ∧
        (s0 ≤ now → r.total_time = Int.floor (now - s0))
     | none =>
        r.total_time = ((answers.getD []).map (fun a => a.time_taken.getD 0)).sum) := by
  obtain ⟨sess, deck, owner, ad, dbSess, hsess, hdeck, had, hdb, howner, hr, hst⟩ :=
    complete_ok_inv h
  have hmap := validateAnswers_ok had
  have hlen : ad.length = (answers.getD []).length := by
    rw [hmap, List.length_map]
  have hcnt : (ad.filter (fun a => a.is_correct)).length =
      ((answers.getD []).filter (fun a => a.is_correct)).length := by
    rw [hmap, ← List.countP_eq_length_filter, ← List.countP_eq_length_filter,
      List.countP_map]
    rfl
  have htime : (ad.map (fun a => a.time_taken.getD 0)).sum =
      ((answers.getD []).map (fun a => a.time_taken.getD 0)).sum := by
    rw [hmap, List.map_map]
    rfl
  refine ⟨?_, ?_, ?_, ?_, ?_⟩
  · rw [hr]
    exact hlen
  · rw [hr]
    exact hcnt
  · rw [hr]
    show round2 (completeAccuracy ad) = _
    rw [completeAccuracy, hlen, hcnt]
  · intro hzero
    rw [hr]
    show round2 (completeAccuracy ad) = 0
    rw [completeAccuracy, hlen, hzero]
    simp [round2_zero]
  · cases startedAt with
    | some s0 =>
      show r.total_time = pyIntOfRat (now - s0) ∧
        (s0 ≤ now → r.total_time = Int.floor (now - s0))
      refine ⟨by rw [hr]; rfl, fun hle => ?_⟩
      rw [hr]
      show completeTotalTime (some s0) now ad = _
      rw [completeTotalTime]
      exact pyIntOfRat_eq_floor (by linarith)
    | none =>
      show r.total_time = ((answers.getD []).map (fun a => a.time_taken.getD 0)).sum
      rw [hr]
      show completeTotalTime none now ad = _
      rw [completeTotalTime, foldl_time_eq_sum, htime]
      ring

/-- C2 (amended): when the session id is not in the store, complete
splits it on underscores: a shape without three segments or without an
integer middle segment fails 400 INVALID_INPUT; a legacy shape whose
referenced deck does not exist fails 404 "Deck not found"; and a legacy
shape whose deck does exist still fails — the original 404 "Session not
found" is re-raised, so the legacy path never proceeds. -/
theorem C2_legacy_fallback {st : Store} {cu : User} {sid : String}
    {answers : Option (List SubmittedAnswer)} {startedAt : Option Rat} {now : Rat}
    (h404 : validate_session_id st cu sid = .error ⟨404, "Session not found"⟩) :
    (¬((pySplit sid ('_')).length ≥ 3 ∧ pyIsDigit ((pySplit sid ('_')).getD 1 "") = true) →
      complete_test_session st cu sid answers startedAt now =
        .error ⟨400, "Invalid session_id format"⟩) ∧
    ((pySplit sid ('_')).length ≥ 3 → pyIsDigit ((pySplit sid ('_')).getD 1 "") = true →
      st.decks.find? (fun d => d.id == pyInt ((pySplit sid ('_')).getD 1 "")) = none →
      complete_test_session st cu sid answers startedAt now =
        .error ⟨404, "Deck not found"⟩) ∧
    ((pySplit sid ('_')).length ≥ 3 → pyIsDigit ((pySplit sid ('_')).getD 1 "") = true →
      (st.decks.find? (fun d => d.id == pyInt ((pySplit sid ('_')).getD 1 ""))).isSome = true →
      complete_test_session st cu sid answers startedAt now =
        .error ⟨404, "Session not found"⟩) := by
  refine ⟨fun hx => ?_, fun h3 hdig hnone => ?_, fun h3 hdig hsome => ?_⟩ <;>
    simp only [complete_test_session, h404] <;>
    refine congrArg Except.error ?_ <;>
    simp only [legacyFallback] <;>
    rw [if_pos trivial]
  · rw [if_neg hx]
  · rw [if_pos ⟨h3, hdig⟩, hnone]
  · obtain ⟨deck, hdeck⟩ := Option.isSome_iff_exists.mp hsome
    rw [if_pos ⟨h3, hdig⟩, hdeck]

/-- C3: after a successful complete, result-summary returns counts
satisfying correct_count + mistake_count = total_questions, with
mistake_count = total − correct (the max with 0 never truncates here)
and score_percent equal to the accuracy complete reported, i.e. the same
2-decimal rounding rule. -/
theorem C3_result_summary {st st2 : Store} {cu : User} {sid : String}
    {answers : Option (List SubmittedAnswer)} {startedAt : Option Rat} {now : Rat}
    {r : TestSessionResult}
    (h : complete_test_session st cu sid answers startedAt now = .ok (r, st2)) :
    get_test_result_summary st2 cu sid =
      .ok ⟨r.total_cards, r.correct_answers,
           (r.total_cards : Int) - (r.correct_answers : Int), r.accuracy⟩ ∧
    (r.correct_answers : Int) + ((r.total_cards : Int) - (r.correct_answers : Int)) =
      (r.total_cards : Int) := by
  obtain ⟨sess, deck, owner, ad, dbSess, hsess, hdeck, had, hdb, howner, hr, hst⟩ :=
    complete_ok_inv h
  obtain ⟨hne, hq, huid⟩ := validate_session_id_ok hsess
  have hdbsess : dbSess = sess :=
    Option.some.inj ((find?_user_of_find? hq huid).symm.trans hdb).symm
  have hsid : sess.session_id = sid := by
    have hp := List.find?_some hq
    simpa using hp
  refine ⟨?_, by ring⟩
  have hfind2 : st2.sessions.find? (fun s => s.session_id == sid) =
      some { dbSess with
             completed_at := some now
             correct_answers := some ((ad.filter (fun a => a.is_correct)).length)
             total_time := some (completeTotalTime startedAt now ad)
             answers_log := some ad } := by
    rw [hst]
    exact find?_map_update hq huid (by rw [hdbsess]; exact hsid)
  have hcle : (ad.filter (fun a => a.is_correct)).length ≤ ad.length :=
    List.length_filter_le _ _
  have hval2 : validate_session_id st2 cu sid =
      .ok { dbSess with
            completed_at := some now
            correct_answers := some ((ad.filter (fun a => a.is_correct)).length)
            total_time := some (completeTotalTime startedAt now ad)
            answers_log := some ad } := by
    simp only [validate_session_id, if_neg hne, hfind2]
    rw [if_neg (by simp [hdbsess, huid])]
  have hmax : max ((ad.length : Int) - ((ad.filter (fun a => a.is_correct)).length : Int)) 0 =
      (ad.length : Int) - ((ad.filter (fun a => a.is_correct)).length : Int) :=
    max_eq_left (sub_nonneg.mpr (by exact_mod_cast hcle))
  have hsum : get_test_result_summary st2 cu sid =
      .ok ⟨ad.length, (ad.filter (fun a => a.is_correct)).length,
           (ad.length : Int) - ((ad.filter (fun a => a.is_correct)).length : Int),
           round2 (completeAccuracy ad)⟩ := by
    rw [get_test_result_summary]
    simp only [hval2, Option.isNone_some, Bool.false_eq_true, if_false, parse_answers,
      Option.getD_some, List.length_map]
    refine congrArg Except.ok ?_
    refine congrArg₂ (fun c d => TestResultSummary.mk ad.length
      ((ad.filter (fun a => a.is_correct)).length) c d) hmax ?_
    by_cases hz : ad.length = 0
    · simp [hz, completeAccuracy]
    · simp [hz, completeAccuracy, Nat.pos_of_ne_zero hz]
  rw [hr]
  exact hsum

/-- C8 (amended): the only operation that mutates a session record is
complete itself: start leaves every existing (in particular every
completed) session record in the store, and submit-answer returns the
store unchanged.  (A second complete on an already-completed session is
not guarded and does overwrite it; see the counterexample.) -/
theorem C8_mutation_only_by_complete {st st1 st2x : Store} {cu : User} {rec : SessionRec}
    {deckId : Nat} {perCard : Int} {tts : Option Int} {shuffled : List Card}
    {sid : String} {now : Rat} {res : StartResult}
    {sid2 : String} {p : SubmitPayload} {out : SubmitResult}
    (hrec : rec ∈ st.sessions) (hdone : rec.completed_at.isSome = true) :
    (start_test_session st cu deckId perCard tts shuffled sid now = .ok (res, st1) →
      rec ∈ st1.sessions) ∧
    (submit_test_answer st cu sid2 p = .ok (out, st2x) → st2x = st) := by
  constructor
  · intro h
    obtain ⟨deck, owner, _, _, _, _, _, hst1⟩ := start_ok_inv h
    rw [hst1]
    exact List.mem_append_left _ hrec
  · intro h
    obtain ⟨_, _, _, _, _, _, _, _, _, _, hst⟩ := submit_ok_inv h
    exact hst

/-! ## Concrete evaluations of `complete` used by witnesses and
counterexamples -/

theorem complete_eval_main :
    complete_test_session stMain alice "s1" (some [submAns]) none 10 =
      .ok (resMain, stAfterCompleteMain) := by
  simp only [complete_test_session,
    show validate_session_id stMain alice "s1" = .ok sessFresh from by decide,
    show stMain.decks.find? (fun d => d.id == sessFresh.deck_id) = some deck1 from by decide,
    show validateAnswers stMain ((some [submAns]).getD []) = .ok [tAns] from by decide,
    show stMain.sessions.find? (fun s => s.session_id == "s1" && s.user_id == alice.id) =
      some sessFresh from by decide,
    show stMain.users.find? (fun u => u.id == deck1.owner_id) = some alice from by decide]
  simp [stMain, stAfterCompleteMain, sessFresh, deck1, alice, bob, deckPriv, deckEmpty,
    cardParis, cardOther, tAns, resMain, completeAccuracy, completeTotalTime,
    round2, roundHalfEven]
  norm_num

theorem complete_eval_started :
    complete_test_session stMain alice "s1" (some [submAns]) (some 1) 10 =
      .ok (resStarted, stAfterCompleteStarted) := by
  simp only [complete_test_session,
    show validate_session_id stMain alice "s1" = .ok sessFresh from by decide,
    show stMain.decks.find? (fun d => d.id == sessFresh.deck_id) = some deck1 from by decide,
    show validateAnswers stMain ((some [submAns]).getD []) = .ok [tAns] from by decide,
    show stMain.sessions.find? (fun s => s.session_id == "s1" && s.user_id == alice.id) =
      some sessFresh from by decide,
    show stMain.users.find? (fun u => u.id == deck1.owner_id) = some alice from by decide]
  simp [stMain, stAfterCompleteStarted, sessFresh, deck1, alice, bob, deckPriv, deckEmpty,
    cardParis, cardOther, tAns, resStarted, completeAccuracy, completeTotalTime,
    pyIntOfRat, round2, roundHalfEven]
  norm_num

theorem complete_eval_neghalf :
    complete_test_session stMain alice "s1" (some []) (some (21/2)) 10 =
      .ok (⟨"s1", "Capitals", "alice@example.com", 0, 0, 0, 0, 10, []⟩,
           stAfterCompleteNegHalf) := by
  simp only [complete_test_session,
    show validate_session_id stMain alice "s1" = .ok sessFresh from by decide,
    show stMain.decks.find? (fun d => d.id == sessFresh.deck_id) = some deck1 from by decide,
    show validateAnswers stMain ((some ([] : List SubmittedAnswer)).getD []) =
      .ok [] from by decide,
    show stMain.sessions.find? (fun s => s.session_id == "s1" && s.user_id == alice.id) =
      some sessFresh from by decide,
    show stMain.users.find? (fun u => u.id == deck1.owner_id) = some alice from by decide]
  simp [stMain, stAfterCompleteNegHalf, sessFresh, deck1, alice, bob, deckPriv, deckEmpty,
    cardParis, cardOther, completeAccuracy, completeTotalTime, pyIntOfRat,
    round2, roundHalfEven]
  norm_num

theorem complete_eval_recomplete :
    complete_test_session stDone alice "s2" (some []) none 9 =
      .ok (⟨"s2", "Capitals", "alice@example.com", 0, 0, 0, 0, 9, []⟩, stReDone) := by
  simp only [complete_test_session,
    show validate_session_id stDone alice "s2" = .ok sessDone from by decide,
    show stDone.decks.find? (fun d => d.id == sessDone.deck_id) = some deck1 from by decide,
    show validateAnswers stDone ((some ([] : List SubmittedAnswer)).getD []) =
      .ok [] from by decide,
    show stDone.sessions.find? (fun s => s.session_id == "s2" && s.user_id == alice.id) =
      some sessDone from by decide,
    show stDone.users.find? (fun u => u.id == deck1.owner_id) = some alice from by decide]
  simp [stDone, stReDone, sessDone, deck1, alice, bob, deckPriv, deckEmpty,
    cardParis, cardOther, completeAccuracy, completeTotalTime,
    round2, roundHalfEven]

/-! ## Remaining claim witnesses and counterexamples -/

/-- C1 counterexample: with started_at = 10.5 and complete_time = 10 the
code returns total_time = 0 (Python `int()` truncates toward zero) while
floor(10 − 10.5) = −1, so "total_time equals floor(complete_time −
started_at)" fails as stated. -/
theorem C1_counterexample :
    complete_test_session stMain alice "s1" (some []) (some (21/2)) 10 =
      .ok (⟨"s1", "Capitals", "alice@example.com", 0, 0, 0, 0, 10, []⟩,
           stAfterCompleteNegHalf) ∧
    Int.floor ((10 : Rat) - 21/2) = -1 ∧ (0 : Int) ≠ -1 :=
  ⟨complete_eval_neghalf, by norm_num, by decide⟩

/-- C1 witness: the amended claim at the concrete completion of "s1" with
one correct answer, started_at = 1 and complete_time = 10. -/
theorem C1_witness :
    resStarted.total_cards = [submAns].length ∧
    resStarted.correct_answers = ([submAns].filter (fun a => a.is_correct)).length ∧
    resStarted.accuracy = round2 (if 0 < [submAns].length then
        ((([submAns].filter (fun a => a.is_correct)).length : Rat) /
          (([submAns].length : Nat) : Rat)) * 100
      else 0) ∧
    ([submAns].length = 0 → resStarted.accuracy = 0) ∧
    (resStarted.total_time = pyIntOfRat ((10 : Rat) - 1) ∧
      ((1 : Rat) ≤ 10 → resStarted.total_time = Int.floor ((10 : Rat) - 1))) :=
  C1_complete_aggregates complete_eval_started

/-- C2 counterexample: session id "alice_1_999" is absent from the store,
has legacy form with integer middle segment 1, and deck 1 exists — yet
complete does not proceed: the original 404 "Session not found" is
re-raised. -/
theorem C2_counterexample :
    complete_test_session stNoSess alice "alice_1_999" (some []) none 0 =
      .error ⟨404, "Session not found"⟩ := by decide

/-- C2 witness: the amended claim at "bad" (no legacy shape → 400),
"u_9_5" (deck 9 missing → 404 Deck not found) and "u_1_5" (deck 1 exists
→ the original 404 Session not found is re-raised). -/
theorem C2_witness :
    complete_test_session stNoSess alice "bad" (some []) none 0 =
      .error ⟨400, "Invalid session_id format"⟩ ∧
    complete_test_session stNoSess alice "u_9_5" (some []) none 0 =
      .error ⟨404, "Deck not found"⟩ ∧
    complete_test_session stNoSess alice "u_1_5" (some []) none 0 =
      .error ⟨404, "Session not found"⟩ :=
  ⟨(C2_legacy_fallback (by decide)).1 (by decide),
   (C2_legacy_fallback (by decide)).2.1 (by decide) (by decide) (by decide),
   (C2_legacy_fallback (by decide)).2.2 (by decide) (by decide) (by decide)⟩

/-- C3 witness: after the concrete completion of "s1", result-summary
returns 1 question, 1 correct, 0 mistakes and the completed accuracy. -/
theorem C3_witness :
    get_test_result_summary stAfterCompleteMain alice "s1" =
      .ok ⟨resMain.total_cards, resMain.correct_answers,
           (resMain.total_cards : Int) - (resMain.correct_answers : Int),
           resMain.accuracy⟩ ∧
    (resMain.correct_answers : Int) +
        ((resMain.total_cards : Int) - (resMain.correct_answers : Int)) =
      (resMain.total_cards : Int) :=
  C3_result_summary complete_eval_main

/-- C8 counterexample: session "s2" is already completed (correct = 1,
total_time = 3), yet a second complete call succeeds and overwrites the
record (correct = 0, total_time = 0), so completed records are not
immutable. -/
theorem C8_counterexample :
    (stDone.sessions.find? (fun s => s.session_id == "s2")).map
        (fun s => (s.completed_at.isSome, s.correct_answers, s.total_time)) =
      some (true, some 1, some 3) ∧
    complete_test_session stDone alice "s2" (some []) none 9 =
      .ok (⟨"s2", "Capitals", "alice@example.com", 0, 0, 0, 0, 9, []⟩, stReDone) ∧
    (stReDone.sessions.find? (fun s => s.session_id == "s2")).map
        (fun s => (s.completed_at.isSome, s.correct_answers, s.total_time)) =
      some (true, some 0, some 0) ∧
    (some 1 : Option Nat) ≠ some 0 :=
  ⟨by decide, complete_eval_recomplete, by decide, by decide⟩

/-- C8 witness: the completed session "s2" survives a concrete start of
deck 1 unchanged, and a concrete submit-answer returns the store
untouched. -/
theorem C8_witness :
    (start_test_session stDone alice 1 10 none [cardParis] "n9" 0 =
        .ok (resStartDone, stAfterStartDone) →
      sessDone ∈ stAfterStartDone.sessions) ∧
    (submit_test_answer stDone alice "s2" ⟨1, PyVal.str "x", none⟩ =
        .ok (⟨1, false, "Paris", "x"⟩, stDone) →
      stDone = stDone) :=
  C8_mutation_only_by_complete (by decide) (by decide)

end QuizApp
